import Mathlib

set_option maxHeartbeats 1000000
set_option maxRecDepth 10000

/-!
Shallow embedding of `src/scrape_closings.py` (Tennessee school-closings
scraper): the classification, key-normalization and deduplication pipeline.

Strings are modelled as lists of Unicode codepoints (`List Nat`); the helper
`S` converts a Lean string literal to that representation.  Python's
`str.upper` / `str.strip` / substring containment (`in`) are modelled for the
ASCII range, which covers every string in the reference tables and every
input exercised here.
-/

namespace TNClosings

/-- Codepoint list of a string literal (embedding helper). -/
def S (s : String) : List Nat := s.toList.map Char.toNat

/-- ASCII model of Python `str.upper` on one codepoint. -/
def upperCode (n : Nat) : Nat := if 97 ≤ n ∧ n ≤ 122 then n - 32 else n

/-- ASCII model of Python `str.lower` on one codepoint. -/
def lowerCode (n : Nat) : Nat := if 65 ≤ n ∧ n ≤ 90 then n + 32 else n

/-- Whitespace codepoints stripped by Python `str.strip` (ASCII range). -/
def isSpaceCode (n : Nat) : Bool :=
  decide (n = 32 ∨ n = 9 ∨ n = 10 ∨ n = 11 ∨ n = 12 ∨ n = 13)

/-- Python `str.upper` (ASCII model). -/
def pyUpper (s : List Nat) : List Nat := s.map upperCode

/-- Python `str.lower` (ASCII model). -/
def pyLower (s : List Nat) : List Nat := s.map lowerCode

/-- Remove leading whitespace. -/
def lstrip (s : List Nat) : List Nat := s.dropWhile isSpaceCode

/-- Remove trailing whitespace. -/
def rstrip (s : List Nat) : List Nat := (s.reverse.dropWhile isSpaceCode).reverse

/-- Python `str.strip`. -/
def pyStrip (s : List Nat) : List Nat := rstrip (lstrip s)

/-- Does `s` start with `p`? -/
def startsWithL : List Nat → List Nat → Bool
  | [], _ => true
  | _ :: _, [] => false
  | a :: p, b :: s => a == b && startsWithL p s

/-- Python substring containment `p in s` (contiguous substring; the empty
string is contained in every string, as in Python). -/
def substrL (p : List Nat) : List Nat → Bool
  | [] => startsWithL p []
  | b :: t => startsWithL p (b :: t) || substrL p t

/-- Does `s` end with `suf`? -/
def endsWithL (suf s : List Nat) : Bool := startsWithL suf.reverse s.reverse

/-- Ordinal (codepoint-lexicographic) string order, used to state the
spec's "sorted by display name ascending". -/
def strLe : List Nat → List Nat → Bool
  | [], _ => true
  | _ :: _, [] => false
  | a :: s, b :: t => if a < b then true else if a = b then strLe s t else false

-- DISTRICT_TO_REGION: 217 entries; duplicate keys collapsed (python dict: first position, last value): []
def DISTRICT_TO_REGION : List (List Nat × List Nat) := [
  (S "Anderson County Schools", S "East Tennessee"),
  (S "Clinton City Schools", S "East Tennessee"),
  (S "Oak Ridge City Schools", S "East Tennessee"),
  (S "Bledsoe County Schools", S "East Tennessee"),
  (S "Alcoa City Schools", S "East Tennessee"),
  (S "Blount County Schools", S "East Tennessee"),
  (S "Maryville City Schools", S "East Tennessee"),
  (S "Bradley County Schools", S "East Tennessee"),
  (S "Cleveland City Schools", S "East Tennessee"),
  (S "Campbell County Schools", S "East Tennessee"),
  (S "Carter County Schools", S "East Tennessee"),
  (S "Elizabethton City Schools", S "East Tennessee"),
  (S "Claiborne County Schools", S "East Tennessee"),
  (S "Cocke County Schools", S "East Tennessee"),
  (S "Newport City Schools", S "East Tennessee"),
  (S "Cumberland County Schools", S "East Tennessee"),
  (S "Grainger County Schools", S "East Tennessee"),
  (S "Greene County Schools", S "East Tennessee"),
  (S "Greeneville City Schools", S "East Tennessee"),
  (S "Hamblen County Schools", S "East Tennessee"),
  (S "Morristown City Schools", S "East Tennessee"),
  (S "Hamilton County Schools", S "East Tennessee"),
  (S "Hamilton County Department of Education", S "East Tennessee"),
  (S "Hancock County Schools", S "East Tennessee"),
  (S "Hawkins County Schools", S "East Tennessee"),
  (S "Rogersville City Schools", S "East Tennessee"),
  (S "Jefferson County Schools", S "East Tennessee"),
  (S "Johnson County Schools", S "East Tennessee"),
  (S "Knox County Schools", S "East Tennessee"),
  (S "Loudon County Schools", S "East Tennessee"),
  (S "Lenoir City Schools", S "East Tennessee"),
  (S "Marion County Schools", S "East Tennessee"),
  (S "McMinn County Schools", S "East Tennessee"),
  (S "Athens City Schools", S "East Tennessee"),
  (S "Etowah City Schools", S "East Tennessee"),
  (S "Meigs County Schools", S "East Tennessee"),
  (S "Monroe County Schools", S "East Tennessee"),
  (S "Sweetwater City Schools", S "East Tennessee"),
  (S "Morgan County Schools", S "East Tennessee"),
  (S "Polk County Schools", S "East Tennessee"),
  (S "Rhea County Schools", S "East Tennessee"),
  (S "Dayton City Schools", S "East Tennessee"),
  (S "Roane County Schools", S "East Tennessee"),
  (S "Scott County Schools", S "East Tennessee"),
  (S "Sevier County Schools", S "East Tennessee"),
  (S "Sullivan County Schools", S "East Tennessee"),
  (S "Bristol Tennessee City Schools", S "East Tennessee"),
  (S "Bristol City Schools", S "East Tennessee"),
  (S "Kingsport City Schools", S "East Tennessee"),
  (S "Unicoi County Schools", S "East Tennessee"),
  (S "Union County Schools", S "East Tennessee"),
  (S "Washington County Schools", S "East Tennessee"),
  (S "Johnson City Schools", S "East Tennessee"),
  (S "Maryville Christian School", S "East Tennessee"),
  (S "Maryville College", S "East Tennessee"),
  (S "Legacy Christian Academy", S "East Tennessee"),
  (S "Cleveland State College", S "East Tennessee"),
  (S "Cleveland State Community College", S "East Tennessee"),
  (S "Bedford County Schools", S "Middle Tennessee"),
  (S "Cannon County Schools", S "Middle Tennessee"),
  (S "Cheatham County Schools", S "Middle Tennessee"),
  (S "Clay County Schools", S "Middle Tennessee"),
  (S "Coffee County Schools", S "Middle Tennessee"),
  (S "Manchester City Schools", S "Middle Tennessee"),
  (S "Manchester City Sch.", S "Middle Tennessee"),
  (S "Tullahoma City Schools", S "Middle Tennessee"),
  (S "Tullahoma City Sch.", S "Middle Tennessee"),
  (S "Achievement School District", S "Middle Tennessee"),
  (S "Metropolitan Nashville Public Schools", S "Middle Tennessee"),
  (S "Metro Nashville Public Schools", S "Middle Tennessee"),
  (S "MNPS", S "Middle Tennessee"),
  (S "Tennessee Public Charter School Commission", S "Middle Tennessee"),
  (S "Dekalb County Schools", S "Middle Tennessee"),
  (S "DeKalb County Schools", S "Middle Tennessee"),
  (S "Dickson County Schools", S "Middle Tennessee"),
  (S "Fentress County Schools", S "Middle Tennessee"),
  (S "Alvin C. York Agricultural Institute", S "Middle Tennessee"),
  (S "Franklin County Schools", S "Middle Tennessee"),
  (S "Giles County Schools", S "Middle Tennessee"),
  (S "Grundy County Schools", S "Middle Tennessee"),
  (S "Hickman County Schools", S "Middle Tennessee"),
  (S "Houston County Schools", S "Middle Tennessee"),
  (S "Humphreys County Schools", S "Middle Tennessee"),
  (S "Jackson County Schools", S "Middle Tennessee"),
  (S "Lawrence County Schools", S "Middle Tennessee"),
  (S "Lewis County Schools", S "Middle Tennessee"),
  (S "Lincoln County Schools", S "Middle Tennessee"),
  (S "Fayetteville City Schools", S "Middle Tennessee"),
  (S "Macon County Schools", S "Middle Tennessee"),
  (S "Marshall County Schools", S "Middle Tennessee"),
  (S "Maury County Schools", S "Middle Tennessee"),
  (S "Maury County Public Schools", S "Middle Tennessee"),
  (S "Columbia City Schools", S "Middle Tennessee"),
  (S "Montgomery County Schools", S "Middle Tennessee"),
  (S "Clarksville-Montgomery County Schools", S "Middle Tennessee"),
  (S "Clarksville-Montgomery County School System", S "Middle Tennessee"),
  (S "CMCSS", S "Middle Tennessee"),
  (S "Moore County Schools", S "Middle Tennessee"),
  (S "Overton County Schools", S "Middle Tennessee"),
  (S "Perry County Schools", S "Middle Tennessee"),
  (S "Pickett County Schools", S "Middle Tennessee"),
  (S "Putnam County Schools", S "Middle Tennessee"),
  (S "Putnam County School System", S "Middle Tennessee"),
  (S "Robertson County Schools", S "Middle Tennessee"),
  (S "Rutherford County Schools", S "Middle Tennessee"),
  (S "Murfreesboro City Schools", S "Middle Tennessee"),
  (S "Sequatchie County Schools", S "Middle Tennessee"),
  (S "Smith County Schools", S "Middle Tennessee"),
  (S "Stewart County Schools", S "Middle Tennessee"),
  (S "Sumner County Schools", S "Middle Tennessee"),
  (S "Trousdale County Schools", S "Middle Tennessee"),
  (S "Van Buren County Schools", S "Middle Tennessee"),
  (S "Warren County Schools", S "Middle Tennessee"),
  (S "Wayne County Schools", S "Middle Tennessee"),
  (S "White County Schools", S "Middle Tennessee"),
  (S "Williamson County Schools", S "Middle Tennessee"),
  (S "Franklin Special School District", S "Middle Tennessee"),
  (S "Wilson County Schools", S "Middle Tennessee"),
  (S "Lebanon Special School District", S "Middle Tennessee"),
  (S "Lancaster Academy", S "Middle Tennessee"),
  (S "Lancaster Early Learn. Centers", S "Middle Tennessee"),
  (S "Redeemer Academy", S "Middle Tennessee"),
  (S "St. Patrick", S "Middle Tennessee"),
  (S "Trevecca Nazarene University", S "Middle Tennessee"),
  (S "TriStar Cottage & Homeschool Co-op", S "Middle Tennessee"),
  (S "Clarksville Christian", S "Middle Tennessee"),
  (S "Lead Acad.-Goodlettsville", S "Middle Tennessee"),
  (S "Nashville State-Clarksville", S "Middle Tennessee"),
  (S "Nashville State-Dickson", S "Middle Tennessee"),
  (S "Nashville State-Humphreys Co.", S "Middle Tennessee"),
  (S "Nashville State-North Davidson", S "Middle Tennessee"),
  (S "Nashville State-Southeast", S "Middle Tennessee"),
  (S "Nashville State-White Bridge", S "Middle Tennessee"),
  (S "Franklin Spec. Sch. Dist.", S "Middle Tennessee"),
  (S "Gen. Sessions Court-Davidson Co.", S "Middle Tennessee"),
  (S "Benton County Schools", S "West Tennessee"),
  (S "Hollow Rock-Bruceton Special School District", S "West Tennessee"),
  (S "Huntingdon Special Schools", S "West Tennessee"),
  (S "McKenzie Special School District", S "West Tennessee"),
  (S "South Carroll Special School District", S "West Tennessee"),
  (S "West Carroll Special School District", S "West Tennessee"),
  (S "Carroll County Schools", S "West Tennessee"),
  (S "Chester County Schools", S "West Tennessee"),
  (S "Alamo City Schools", S "West Tennessee"),
  (S "Bells City Schools", S "West Tennessee"),
  (S "Bells City School", S "West Tennessee"),
  (S "Crockett County Schools", S "West Tennessee"),
  (S "Decatur County Schools", S "West Tennessee"),
  (S "Dyer County Schools", S "West Tennessee"),
  (S "Dyersburg City Schools", S "West Tennessee"),
  (S "Fayette County Schools", S "West Tennessee"),
  (S "Fayette County Public Schools", S "West Tennessee"),
  (S "Bradford Special Schools", S "West Tennessee"),
  (S "Gibson County Special School District", S "West Tennessee"),
  (S "Humboldt City Schools", S "West Tennessee"),
  (S "Milan Special School District", S "West Tennessee"),
  (S "Trenton City Schools", S "West Tennessee"),
  (S "Hardeman County Schools", S "West Tennessee"),
  (S "Hardin County Schools", S "West Tennessee"),
  (S "Haywood County Schools", S "West Tennessee"),
  (S "Henderson County Schools", S "West Tennessee"),
  (S "Lexington City Schools", S "West Tennessee"),
  (S "Henry County Schools", S "West Tennessee"),
  (S "Paris Special School District", S "West Tennessee"),
  (S "Lake County Schools", S "West Tennessee"),
  (S "Lauderdale County Schools", S "West Tennessee"),
  (S "Madison County Schools", S "West Tennessee"),
  (S "Jackson-Madison County Schools", S "West Tennessee"),
  (S "Jackson-Madison County School System", S "West Tennessee"),
  (S "McNairy County Schools", S "West Tennessee"),
  (S "Obion County Schools", S "West Tennessee"),
  (S "Union City Schools", S "West Tennessee"),
  (S "Shelby County Schools", S "West Tennessee"),
  (S "Memphis-Shelby County Schools", S "West Tennessee"),
  (S "Memphis Shelby County Schools", S "West Tennessee"),
  (S "Arlington Community Schools", S "West Tennessee"),
  (S "Bartlett City Schools", S "West Tennessee"),
  (S "Collierville Schools", S "West Tennessee"),
  (S "Collierville School District", S "West Tennessee"),
  (S "Germantown Municipal School District", S "West Tennessee"),
  (S "Lakeland School System", S "West Tennessee"),
  (S "Millington Municipal Schools", S "West Tennessee"),
  (S "Tipton County Schools", S "West Tennessee"),
  (S "Covington City Schools", S "West Tennessee"),
  (S "Weakley County Schools", S "West Tennessee"),
  (S "Briarcrest Christian School", S "West Tennessee"),
  (S "Christian Brothers High School", S "West Tennessee"),
  (S "Evangelical Christian School", S "West Tennessee"),
  (S "St. Benedict at Auburndale", S "West Tennessee"),
  (S "St. Benedict at Aurburndale High School", S "West Tennessee"),
  (S "Woodland Presbyterian School", S "West Tennessee"),
  (S "Immanuel Lutheran School", S "West Tennessee"),
  (S "Christ the King Lutheran School", S "West Tennessee"),
  (S "First Assembly Christian School", S "West Tennessee"),
  (S "New Hope Christian Academy", S "West Tennessee"),
  (S "Compass Community Schools", S "West Tennessee"),
  (S "Concord Academy", S "West Tennessee"),
  (S "Freedom Preparatory Academy", S "West Tennessee"),
  (S "Freedom Prep Academy", S "West Tennessee"),
  (S "KIPP Memphis Public Schools", S "West Tennessee"),
  (S "Power Center Academy", S "West Tennessee"),
  (S "STAR Academy Charter School", S "West Tennessee"),
  (S "Magnolia Heights", S "West Tennessee"),
  (S "Pleasant View School", S "West Tennessee"),
  (S "Nova Life Coach Academy", S "West Tennessee"),
  (S "Expanded Educational Services Success Academy", S "West Tennessee"),
  (S "Rhodes College", S "West Tennessee"),
  (S "University of Memphis", S "West Tennessee"),
  (S "Mid-America Baptist Theological Seminary", S "West Tennessee"),
  (S "LeMoyne-Owen College", S "West Tennessee"),
  (S "Lafayette County School District", S "West Tennessee"),
  (S "Oxford School District", S "West Tennessee"),
  (S "Senatobia Municipal School District", S "West Tennessee"),
  (S "South Panola School District", S "West Tennessee"),
  (S "Tate County School District", S "West Tennessee"),
  (S "Northwest Mississippi Community College", S "West Tennessee"),
  (S "University of Mississippi", S "West Tennessee")
]

-- COUNTY_REGIONS: 99 entries; duplicate keys collapsed (python dict: first position, last value): ['Marshall']
def COUNTY_REGIONS : List (List Nat × List Nat) := [
  (S "Anderson", S "East Tennessee"),
  (S "Bledsoe", S "East Tennessee"),
  (S "Blount", S "East Tennessee"),
  (S "Bradley", S "East Tennessee"),
  (S "Campbell", S "East Tennessee"),
  (S "Carter", S "East Tennessee"),
  (S "Claiborne", S "East Tennessee"),
  (S "Cocke", S "East Tennessee"),
  (S "Cumberland", S "East Tennessee"),
  (S "Grainger", S "East Tennessee"),
  (S "Greene", S "East Tennessee"),
  (S "Hamblen", S "East Tennessee"),
  (S "Hamilton", S "East Tennessee"),
  (S "Hancock", S "East Tennessee"),
  (S "Hawkins", S "East Tennessee"),
  (S "Jefferson", S "East Tennessee"),
  (S "Johnson", S "East Tennessee"),
  (S "Knox", S "East Tennessee"),
  (S "Loudon", S "East Tennessee"),
  (S "Marion", S "East Tennessee"),
  (S "McMinn", S "East Tennessee"),
  (S "Meigs", S "East Tennessee"),
  (S "Monroe", S "East Tennessee"),
  (S "Morgan", S "East Tennessee"),
  (S "Polk", S "East Tennessee"),
  (S "Rhea", S "East Tennessee"),
  (S "Roane", S "East Tennessee"),
  (S "Scott", S "East Tennessee"),
  (S "Sevier", S "East Tennessee"),
  (S "Sullivan", S "East Tennessee"),
  (S "Unicoi", S "East Tennessee"),
  (S "Union", S "East Tennessee"),
  (S "Washington", S "East Tennessee"),
  (S "Bedford", S "Middle Tennessee"),
  (S "Cannon", S "Middle Tennessee"),
  (S "Cheatham", S "Middle Tennessee"),
  (S "Clay", S "Middle Tennessee"),
  (S "Coffee", S "Middle Tennessee"),
  (S "Davidson", S "Middle Tennessee"),
  (S "DeKalb", S "Middle Tennessee"),
  (S "Dickson", S "Middle Tennessee"),
  (S "Fentress", S "Middle Tennessee"),
  (S "Franklin", S "Middle Tennessee"),
  (S "Giles", S "Middle Tennessee"),
  (S "Grundy", S "Middle Tennessee"),
  (S "Hickman", S "Middle Tennessee"),
  (S "Houston", S "Middle Tennessee"),
  (S "Humphreys", S "Middle Tennessee"),
  (S "Jackson", S "Middle Tennessee"),
  (S "Lawrence", S "Middle Tennessee"),
  (S "Lewis", S "Middle Tennessee"),
  (S "Lincoln", S "Middle Tennessee"),
  (S "Macon", S "Middle Tennessee"),
  (S "Marshall", S "West Tennessee"),
  (S "Maury", S "Middle Tennessee"),
  (S "Montgomery", S "Middle Tennessee"),
  (S "Moore", S "Middle Tennessee"),
  (S "Overton", S "Middle Tennessee"),
  (S "Perry", S "Middle Tennessee"),
  (S "Pickett", S "Middle Tennessee"),
  (S "Putnam", S "Middle Tennessee"),
  (S "Robertson", S "Middle Tennessee"),
  (S "Rutherford", S "Middle Tennessee"),
  (S "Sequatchie", S "Middle Tennessee"),
  (S "Smith", S "Middle Tennessee"),
  (S "Stewart", S "Middle Tennessee"),
  (S "Sumner", S "Middle Tennessee"),
  (S "Trousdale", S "Middle Tennessee"),
  (S "Van Buren", S "Middle Tennessee"),
  (S "Warren", S "Middle Tennessee"),
  (S "Wayne", S "Middle Tennessee"),
  (S "White", S "Middle Tennessee"),
  (S "Williamson", S "Middle Tennessee"),
  (S "Wilson", S "Middle Tennessee"),
  (S "Benton", S "West Tennessee"),
  (S "Carroll", S "West Tennessee"),
  (S "Chester", S "West Tennessee"),
  (S "Crockett", S "West Tennessee"),
  (S "Decatur", S "West Tennessee"),
  (S "Dyer", S "West Tennessee"),
  (S "Fayette", S "West Tennessee"),
  (S "Gibson", S "West Tennessee"),
  (S "Hardeman", S "West Tennessee"),
  (S "Hardin", S "West Tennessee"),
  (S "Haywood", S "West Tennessee"),
  (S "Henderson", S "West Tennessee"),
  (S "Henry", S "West Tennessee"),
  (S "Lake", S "West Tennessee"),
  (S "Lauderdale", S "West Tennessee"),
  (S "Madison", S "West Tennessee"),
  (S "McNairy", S "West Tennessee"),
  (S "Obion", S "West Tennessee"),
  (S "Shelby", S "West Tennessee"),
  (S "Tipton", S "West Tennessee"),
  (S "Weakley", S "West Tennessee"),
  (S "Lafayette", S "West Tennessee"),
  (S "Panola", S "West Tennessee"),
  (S "Tate", S "West Tennessee"),
  (S "DeSoto", S "West Tennessee")
]

-- CITY_REGIONS: 59 entries; duplicate keys collapsed (python dict: first position, last value): []
def CITY_REGIONS : List (List Nat × List Nat) := [
  (S "Knoxville", S "East Tennessee"),
  (S "Chattanooga", S "East Tennessee"),
  (S "Johnson City", S "East Tennessee"),
  (S "Kingsport", S "East Tennessee"),
  (S "Bristol", S "East Tennessee"),
  (S "Morristown", S "East Tennessee"),
  (S "Cleveland", S "East Tennessee"),
  (S "Maryville", S "East Tennessee"),
  (S "Oak Ridge", S "East Tennessee"),
  (S "Athens", S "East Tennessee"),
  (S "Greeneville", S "East Tennessee"),
  (S "Elizabethton", S "East Tennessee"),
  (S "Sevierville", S "East Tennessee"),
  (S "Pigeon Forge", S "East Tennessee"),
  (S "Gatlinburg", S "East Tennessee"),
  (S "Nashville", S "Middle Tennessee"),
  (S "Murfreesboro", S "Middle Tennessee"),
  (S "Franklin", S "Middle Tennessee"),
  (S "Clarksville", S "Middle Tennessee"),
  (S "Columbia", S "Middle Tennessee"),
  (S "Gallatin", S "Middle Tennessee"),
  (S "Hendersonville", S "Middle Tennessee"),
  (S "Lebanon", S "Middle Tennessee"),
  (S "Cookeville", S "Middle Tennessee"),
  (S "Shelbyville", S "Middle Tennessee"),
  (S "Tullahoma", S "Middle Tennessee"),
  (S "Manchester", S "Middle Tennessee"),
  (S "Dickson", S "Middle Tennessee"),
  (S "Springfield", S "Middle Tennessee"),
  (S "Portland", S "Middle Tennessee"),
  (S "Smyrna", S "Middle Tennessee"),
  (S "La Vergne", S "Middle Tennessee"),
  (S "Spring Hill", S "Middle Tennessee"),
  (S "Goodlettsville", S "Middle Tennessee"),
  (S "White House", S "Middle Tennessee"),
  (S "McMinnville", S "Middle Tennessee"),
  (S "Memphis", S "West Tennessee"),
  (S "Jackson", S "West Tennessee"),
  (S "Bartlett", S "West Tennessee"),
  (S "Collierville", S "West Tennessee"),
  (S "Germantown", S "West Tennessee"),
  (S "Dyersburg", S "West Tennessee"),
  (S "Millington", S "West Tennessee"),
  (S "Covington", S "West Tennessee"),
  (S "Ripley", S "West Tennessee"),
  (S "Savannah", S "West Tennessee"),
  (S "Selmer", S "West Tennessee"),
  (S "Bolivar", S "West Tennessee"),
  (S "Lexington", S "West Tennessee"),
  (S "Henderson", S "West Tennessee"),
  (S "Humboldt", S "West Tennessee"),
  (S "Milan", S "West Tennessee"),
  (S "Trenton", S "West Tennessee"),
  (S "Union City", S "West Tennessee"),
  (S "Paris", S "West Tennessee"),
  (S "Martin", S "West Tennessee"),
  (S "McKenzie", S "West Tennessee"),
  (S "Oxford", S "West Tennessee"),
  (S "Senatobia", S "West Tennessee")
]


/-- Scan an association table in insertion order; return the region of the
first key passing `test` (models the `for ... in dict.items()` loops and the
exact dict lookup in `classify_region`). -/
def findRegion (test : List Nat → Bool) : List (List Nat × List Nat) → Option (List Nat)
  | [] => none
  | (k, r) :: rest => if test k then some r else findRegion test rest

/-- `classify_region` from `src/scrape_closings.py` (lines 348-372):
exact district match, then bidirectional case-insensitive partial district
match, then county substring, then city substring, then "Other". -/
def classify_region (name : List Nat) : List Nat :=
  let name_clean := pyStrip name
  let name_upper := pyUpper name_clean
  match findRegion (fun d => name_clean == d) DISTRICT_TO_REGION with
  | some r => r
  | none =>
  match findRegion
      (fun d => substrL (pyUpper d) name_upper || substrL name_upper (pyUpper d))
      DISTRICT_TO_REGION with
  | some r => r
  | none =>
  match findRegion (fun c => substrL (pyUpper c) name_upper) COUNTY_REGIONS with
  | some r => r
  | none =>
  match findRegion (fun c => substrL (pyUpper c) name_upper) CITY_REGIONS with
  | some r => r
  | none => S "Other"

/-- Keyword group for DELAYED (line 379). -/
def DELAYED_KWS : List (List Nat) :=
  [S "2 HOUR", S "2-HOUR", S "TWO HOUR", S "1 HOUR", S "1-HOUR", S "DELAY"]

/-- Keyword group for EARLY_DISMISSAL (line 381). -/
def EARLY_KWS : List (List Nat) :=
  [S "EARLY", S "DISMISS", S "CLOSING AT", S "CLOSES AT"]

/-- Keyword group for REMOTE (line 383). -/
def REMOTE_KWS : List (List Nat) :=
  [S "REMOTE", S "VIRTUAL", S "DISTANCE", S "ONLINE"]

/-- Keyword group for CLOSED (line 385). -/
def CLOSED_KWS : List (List Nat) :=
  [S "CLOSED", S "CANCEL", S "NO SCHOOL", S "THROUGH"]

/-- `any(kw in text for kw in kws)`. -/
def hasKW (kws : List (List Nat)) (text : List Nat) : Bool :=
  kws.any (fun kw => substrL kw text)

/-- `classify_status` from `src/scrape_closings.py` (lines 375-388):
first matching keyword group wins; default is CLOSED. -/
def classify_status (status_text : List Nat) : List Nat :=
  let text := pyUpper status_text
  if hasKW DELAYED_KWS text then S "DELAYED"
  else if hasKW EARLY_KWS text then S "EARLY_DISMISSAL"
  else if hasKW REMOTE_KWS text then S "REMOTE"
  else if hasKW CLOSED_KWS text then S "CLOSED"
  else S "CLOSED"

/-- A raw scraped record, as handed to the pipeline:
`{name, status_text, source}`. -/
structure RawClosing where
  name : List Nat
  status_text : List Nat
  source : List Nat
deriving DecidableEq

/-- A closing record as built by the scrapers (lines 413-419 / 470-476):
`{name, status, status_detail, region, source}`.  Note the code stores a
single `source` string per record, not a list of sources. -/
structure Closing where
  name : List Nat
  status : List Nat
  status_detail : List Nat
  region : List Nat
  source : List Nat
deriving DecidableEq

/-- Record construction as in `scrape_newschannel5` (lines 413-419):
`status = classify_status(status_detail)`, `status_detail = status_text`,
`region = classify_region(name)`. -/
def mkClosing (r : RawClosing) : Closing :=
  { name := r.name
    status := classify_status r.status_text
    status_detail := r.status_text
    region := classify_region r.name
    source := r.source }

/-- The dedup key computed at line 489: `closing['name'].upper().strip()`. -/
def dedupKey (name : List Nat) : List Nat := pyStrip (pyUpper name)

/-- Lookup in the insertion-ordered model of the `seen` dict. -/
def assocFind (key : List Nat) : List (List Nat × Closing) → Option Closing
  | [] => none
  | (k, c) :: rest => if key = k then some c else assocFind key rest

/-- `seen[key] = closing` when `key` is already present: the stored record is
replaced wholesale, at its original insertion position (Python dict
semantics). -/
def replaceA (key : List Nat) (c : Closing) :
    List (List Nat × Closing) → List (List Nat × Closing)
  | [] => []
  | (k, e) :: rest =>
      if k = key then (k, c) :: rest else (k, e) :: replaceA key c rest

/-- One iteration of the loop in `deduplicate_closings` (lines 488-494). -/
def insertClosing (seen : List (List Nat × Closing)) (c : Closing) :
    List (List Nat × Closing) :=
  let key := dedupKey c.name
  match assocFind key seen with
  | none => seen ++ [(key, c)]
  | some existing =>
      if c.status_detail.length > existing.status_detail.length
      then replaceA key c seen
      else seen

/-- `deduplicate_closings` (lines 484-496): fold the records into the
insertion-ordered `seen` dict, then return `list(seen.values())`. -/
def deduplicate_closings (closings : List Closing) : List Closing :=
  (closings.foldl insertClosing []).map Prod.snd

/-- The aggregation pipeline for a batch of raw records: build each closing
record as the scrapers do, then deduplicate, as `main` does (line 530).
`main` applies no sorting step to the result. -/
def aggregate (raws : List RawClosing) : List Closing :=
  deduplicate_closings (raws.map mkClosing)

/-- Dedup key of a closing record. -/
def keyOf (c : Closing) : List Nat := dedupKey c.name

/-- The output collection is sorted by display name, ascending, in the
ordinal order (the property the spec asserts of the output). -/
def sortedByName (cs : List Closing) : Prop :=
  cs.Pairwise (fun c1 c2 => strLe c1.name c2.name = true)

/-- Modelled from the spec (section 4.3): the suffix set of the claimed
`normalize_key`, longest/most specific first.  No such normalizer exists in
`src/scrape_closings.py`; this definition follows the spec's words so the
actual key computation (line 489) can be compared against it. -/
def SUFFIXES : List (List Nat) :=
  [S "school district", S "county schools", S "city schools",
   S "schools", S "school"]

/-- Modelled from the spec (section 4.3): strip at most one trailing suffix,
the longest/most specific applicable one. -/
def stripOneSuffix (s : List Nat) : List Nat :=
  match SUFFIXES.find? (fun suf => endsWithL suf s) with
  | some suf => s.take (s.length - suf.length)
  | none => s

/-- Collapse whitespace runs to single spaces (worker; the flag records
whether the previous kept character closed a whitespace run). -/
def collapseAux : Bool → List Nat → List Nat
  | _, [] => []
  | prevSpace, a :: t =>
      if isSpaceCode a then
        if prevSpace then collapseAux true t else 32 :: collapseAux true t
      else a :: collapseAux false t

/-- Modelled from the spec (section 4.3): collapse internal whitespace runs
to single spaces. -/
def collapseWS (s : List Nat) : List Nat := collapseAux false s

/-- Modelled from the spec (section 4.3): the claimed `normalize_key` —
lower-case, strip one trailing suffix, collapse whitespace, trim.  Stated
only to be compared with the code's actual key computation. -/
def specNormalizeKey (x : List Nat) : List Nat :=
  pyStrip (collapseWS (stripOneSuffix (pyLower x)))



/-! ### Helper lemmas: upper/strip algebra -/

theorem upperCode_idem (n : Nat) : upperCode (upperCode n) = upperCode n := by
  simp only [upperCode]
  split_ifs <;> omega

theorem isSpaceCode_upperCode (n : Nat) :
    isSpaceCode (upperCode n) = isSpaceCode n := by
  simp only [isSpaceCode, upperCode]
  split_ifs with h
  · rw [decide_eq_decide]
    omega
  · rfl

theorem pyUpper_idem (s : List Nat) : pyUpper (pyUpper s) = pyUpper s := by
  simp only [pyUpper, List.map_map]
  congr 1
  funext n
  exact upperCode_idem n

theorem dropWhile_idem (p : Nat → Bool) (l : List Nat) :
    (l.dropWhile p).dropWhile p = l.dropWhile p := by
  induction l with
  | nil => rfl
  | cons a t ih =>
    rw [List.dropWhile_cons]
    split_ifs with h
    · exact ih
    · rw [List.dropWhile_cons, if_neg (by simp [h])]

theorem dropWhile_reverseStrip (p : Nat → Bool) (l : List Nat)
    (h : l.dropWhile p = l) :
    ((l.reverse.dropWhile p).reverse).dropWhile p = (l.reverse.dropWhile p).reverse := by
  cases l with
  | nil => simp
  | cons a t =>
    have ha : p a = false := by
      by_contra hpa
      have hpa : p a = true := by simpa using hpa
      rw [List.dropWhile_cons, if_pos hpa] at h
      have hlen := (List.dropWhile_sublist (l := t) p).length_le
      rw [h] at hlen
      simp at hlen
    rw [List.reverse_cons, List.dropWhile_append]
    split_ifs with he
    · rw [List.dropWhile_cons, if_neg (by simp [ha])]
      simp [List.dropWhile_cons, ha]
    · rw [List.reverse_append]
      simp only [List.reverse_cons, List.reverse_nil, List.nil_append,
        List.singleton_append]
      rw [List.dropWhile_cons, if_neg (by simp [ha])]

theorem lstrip_idem (s : List Nat) : lstrip (lstrip s) = lstrip s :=
  dropWhile_idem _ _

theorem rstrip_idem (s : List Nat) : rstrip (rstrip s) = rstrip s := by
  simp only [rstrip, List.reverse_reverse]
  rw [dropWhile_idem]

theorem lstrip_rstrip_lstrip (s : List Nat) :
    lstrip (rstrip (lstrip s)) = rstrip (lstrip s) := by
  simpa only [lstrip, rstrip] using
    dropWhile_reverseStrip isSpaceCode (lstrip s) (lstrip_idem s)

theorem pyStrip_idem (s : List Nat) : pyStrip (pyStrip s) = pyStrip s := by
  unfold pyStrip
  rw [lstrip_rstrip_lstrip, rstrip_idem]

theorem isSpaceCode_comp_upperCode :
    (isSpaceCode ∘ upperCode) = isSpaceCode := by
  funext n
  exact isSpaceCode_upperCode n

theorem lstrip_pyUpper (s : List Nat) :
    lstrip (pyUpper s) = pyUpper (lstrip s) := by
  simp only [lstrip, pyUpper]
  rw [List.dropWhile_map, isSpaceCode_comp_upperCode]

theorem rstrip_pyUpper (s : List Nat) :
    rstrip (pyUpper s) = pyUpper (rstrip s) := by
  simp only [rstrip, pyUpper]
  rw [← List.map_reverse, List.dropWhile_map, isSpaceCode_comp_upperCode,
    List.map_reverse]

theorem pyStrip_pyUpper (s : List Nat) :
    pyStrip (pyUpper s) = pyUpper (pyStrip s) := by
  unfold pyStrip
  rw [lstrip_pyUpper, rstrip_pyUpper]

theorem dedupKey_idem (x : List Nat) : dedupKey (dedupKey x) = dedupKey x := by
  unfold dedupKey
  calc pyStrip (pyUpper (pyStrip (pyUpper x)))
      = pyStrip (pyStrip (pyUpper (pyUpper x))) := by rw [← pyStrip_pyUpper]
    _ = pyStrip (pyStrip (pyUpper x)) := by rw [pyUpper_idem]
    _ = pyStrip (pyUpper x) := pyStrip_idem _

theorem dedupKey_pyUpper (x : List Nat) : dedupKey (pyUpper x) = dedupKey x := by
  unfold dedupKey
  rw [pyUpper_idem]

/-! ### Helper lemmas: region table lookups -/

theorem findRegion_mem (test : List Nat → Bool) :
    ∀ (tbl : List (List Nat × List Nat)) (r : List Nat),
      findRegion test tbl = some r → r ∈ tbl.map Prod.snd
  | [], r, h => by simp [findRegion] at h
  | (k, v) :: rest, r, h => by
      rw [findRegion] at h
      split_ifs at h with ht
      · simp only [Option.some.injEq] at h
        simp [h]
      · simpa using Or.inr (findRegion_mem test rest r h)

/-! ### Helper lemmas: the dedup fold -/

theorem assocFind_append_none (key : List Nat)
    (l1 l2 : List (List Nat × Closing)) (h1 : assocFind key l1 = none)
    (h2 : assocFind key l2 = none) : assocFind key (l1 ++ l2) = none := by
  induction l1 with
  | nil => simpa using h2
  | cons p t ih =>
    obtain ⟨k, c⟩ := p
    rw [List.cons_append, assocFind]
    rw [assocFind] at h1
    split_ifs at h1 ⊢ with he
    exact ih h1

theorem insertClosing_not_found (seen : List (List Nat × Closing)) (c : Closing)
    (h : assocFind (dedupKey c.name) seen = none) :
    insertClosing seen c = seen ++ [(dedupKey c.name, c)] := by
  simp only [insertClosing, h]

theorem foldl_insert_fresh :
    ∀ (cs : List Closing) (seen : List (List Nat × Closing)),
      (∀ c ∈ cs, assocFind (keyOf c) seen = none) → (cs.map keyOf).Nodup →
      List.foldl insertClosing seen cs = seen ++ cs.map (fun c => (keyOf c, c)) := by
  intro cs
  induction cs with
  | nil => intro seen _ _; simp
  | cons c rest ih =>
    intro seen hfresh hnodup
    simp only [List.foldl]
    rw [insertClosing_not_found seen c (hfresh c (List.mem_cons_self c rest))]
    rw [List.map_cons, List.nodup_cons] at hnodup
    rw [ih (seen ++ [(dedupKey c.name, c)]) ?_ hnodup.2]
    · simp [keyOf]
    · intro c' hc'
      apply assocFind_append_none _ _ _ (hfresh c' (List.mem_cons_of_mem c hc'))
      have hne : keyOf c' ≠ keyOf c := by
        intro heq
        exact hnodup.1 (heq ▸ List.mem_map_of_mem keyOf hc')
      simp only [assocFind, keyOf] at hne ⊢
      rw [if_neg hne]

theorem dedup_of_nodup_keys (cs : List Closing)
    (h : (cs.map keyOf).Nodup) : deduplicate_closings cs = cs := by
  unfold deduplicate_closings
  rw [foldl_insert_fresh cs [] (fun c _ => rfl) h]
  have hcomp : (Prod.snd ∘ fun c => (keyOf c, c)) = id := rfl
  rw [List.nil_append, List.map_map, hcomp, List.map_id]

theorem replaceA_mem (key : List Nat) (c : Closing) :
    ∀ (l : List (List Nat × Closing)) (p : List Nat × Closing),
      p ∈ replaceA key c l → p ∈ l ∨ p.2 = c
  | [], p, h => by simp [replaceA] at h
  | (k, e) :: t, p, h => by
      rw [replaceA] at h
      split_ifs at h with he
      · rcases List.mem_cons.1 h with h1 | h1
        · right; rw [h1]
        · left; exact List.mem_cons_of_mem _ h1
      · rcases List.mem_cons.1 h with h1 | h1
        · left; exact h1 ▸ List.mem_cons_self _ _
        · rcases replaceA_mem key c t p h1 with h2 | h2
          · left; exact List.mem_cons_of_mem _ h2
          · right; exact h2

theorem insertClosing_mem (seen : List (List Nat × Closing)) (c : Closing)
    (p : List Nat × Closing) (h : p ∈ insertClosing seen c) :
    p ∈ seen ∨ p.2 = c := by
  simp only [insertClosing] at h
  split at h
  · rcases List.mem_append.1 h with h1 | h1
    · left; exact h1
    · right; simp at h1; rw [h1]
  · split_ifs at h with hl
    · exact replaceA_mem _ _ _ _ h
    · left; exact h

theorem foldl_insert_mem :
    ∀ (cs : List Closing) (seen : List (List Nat × Closing))
      (p : List Nat × Closing),
      p ∈ List.foldl insertClosing seen cs → p ∈ seen ∨ p.2 ∈ cs := by
  intro cs
  induction cs with
  | nil => intro seen p h; exact Or.inl h
  | cons c rest ih =>
    intro seen p h
    simp only [List.foldl] at h
    rcases ih _ p h with h1 | h2
    · rcases insertClosing_mem _ _ _ h1 with h3 | h4
      · left; exact h3
      · right; rw [h4]; exact List.mem_cons_self _ _
    · right; exact List.mem_cons_of_mem _ h2

theorem dedup_mem (cs : List Closing) (c : Closing)
    (h : c ∈ deduplicate_closings cs) : c ∈ cs := by
  unfold deduplicate_closings at h
  obtain ⟨p, hp, rfl⟩ := List.mem_map.1 h
  rcases foldl_insert_mem cs [] p hp with h1 | h2
  · simp at h1
  · exact h2

theorem dedup_pair (c1 c2 : Closing) (h : keyOf c1 = keyOf c2) :
    deduplicate_closings [c1, c2] =
      [if c2.status_detail.length > c1.status_detail.length then c2 else c1] := by
  unfold keyOf at h
  unfold deduplicate_closings
  simp only [List.foldl]
  have h1 : insertClosing [] c1 = [(dedupKey c1.name, c1)] := by
    simp [insertClosing, assocFind]
  rw [h1]
  have h2 : assocFind (dedupKey c2.name) [(dedupKey c1.name, c1)] = some c1 := by
    simp [assocFind, h]
  simp only [insertClosing, h2]
  by_cases hl : c2.status_detail.length > c1.status_detail.length
  · simp only [hl, if_pos, if_true]
    simp [replaceA, h, hl]
  · simp [hl]



theorem classify_region_total (name : List Nat) :
    classify_region name = S "East Tennessee" ∨
    classify_region name = S "Middle Tennessee" ∨
    classify_region name = S "West Tennessee" ∨
    classify_region name = S "Other" := by
  have hD : ∀ r ∈ DISTRICT_TO_REGION.map Prod.snd,
      r = S "East Tennessee" ∨ r = S "Middle Tennessee" ∨
      r = S "West Tennessee" := by decide
  have hC : ∀ r ∈ COUNTY_REGIONS.map Prod.snd,
      r = S "East Tennessee" ∨ r = S "Middle Tennessee" ∨
      r = S "West Tennessee" := by decide
  have hI : ∀ r ∈ CITY_REGIONS.map Prod.snd,
      r = S "East Tennessee" ∨ r = S "Middle Tennessee" ∨
      r = S "West Tennessee" := by decide
  simp only [classify_region]
  split
  next r hr =>
    rcases hD r (findRegion_mem _ _ _ hr) with h | h | h <;> simp [h]
  next =>
    split
    next r hr =>
      rcases hD r (findRegion_mem _ _ _ hr) with h | h | h <;> simp [h]
    next =>
      split
      next r hr =>
        rcases hC r (findRegion_mem _ _ _ hr) with h | h | h <;> simp [h]
      next =>
        split
        next r hr =>
          rcases hI r (findRegion_mem _ _ _ hr) with h | h | h <;> simp [h]
        next => simp

/-! ### The claims -/

/-- C1, counterexample: for the spec's end-to-end scenario input, the
pipeline does not emit one merged record — the two names have different
dedup keys (the key is the upper-cased name, with no suffix stripping), so
two records are emitted. -/
theorem C1_counterexample :
    (aggregate [⟨S "Maury County Public Schools", S "Closed", S "X"⟩,
                ⟨S "Maury County Schools", S "Closed due to weather", S "Y"⟩]).length ≠ 1 := by
  decide

/-- C1, amended: for the two-record input of the scenario — name
"Maury County Public Schools" / status_text "Closed" / source "X", then
name "Maury County Schools" / status_text "Closed due to weather" /
source "Y" — the pipeline emits two records, both with region
"Middle Tennessee" and status CLOSED; the first keeps status_detail
"Closed" and source "X", the second keeps status_detail
"Closed due to weather" and source "Y".  Records carry a single source
string; no `sources` list exists. -/
theorem C1_amended :
    aggregate [⟨S "Maury County Public Schools", S "Closed", S "X"⟩,
               ⟨S "Maury County Schools", S "Closed due to weather", S "Y"⟩] =
      [⟨S "Maury County Public Schools", S "CLOSED", S "Closed",
        S "Middle Tennessee", S "X"⟩,
       ⟨S "Maury County Schools", S "CLOSED", S "Closed due to weather",
        S "Middle Tennessee", S "Y"⟩] := by
  decide

/-- C2, counterexample: the dedup key of "Wilson County Schools" is
"WILSON COUNTY SCHOOLS" — it still ends in the suffix (upper-cased) and
differs from what the spec's claimed normalizer (lower-case, one suffix
stripped, whitespace collapsed, trimmed) would produce. -/
theorem C2_counterexample :
    dedupKey (S "Wilson County Schools") = S "WILSON COUNTY SCHOOLS" ∧
    endsWithL (S "SCHOOLS") (dedupKey (S "Wilson County Schools")) = true ∧
    dedupKey (S "Wilson County Schools") ≠
      specNormalizeKey (S "Wilson County Schools") := by
  decide

/-- C2, amended: the dedup key is computed by upper-casing the name and
trimming leading/trailing whitespace only: pre-upper-casing the input does
not change the key, the key of "Wilson County Schools" retains the suffix
(upper-cased), and internal whitespace runs are preserved, not collapsed. -/
theorem C2_amended :
    (∀ x, dedupKey (pyUpper x) = dedupKey x) ∧
    dedupKey (S "Wilson County Schools") = S "WILSON COUNTY SCHOOLS" ∧
    dedupKey (S "  wilson   county schools  ") = S "WILSON   COUNTY SCHOOLS" :=
  ⟨dedupKey_pyUpper, by decide, by decide⟩

/-- C3, counterexample: merging a later raw record with the same key and a
strictly longer status_text replaces the whole record: the display name
becomes the later raw name and the status is re-derived from the later
status_text (here DELAYED), even though the first record classified as
CLOSED. -/
theorem C3_counterexample :
    (aggregate [⟨S "Maury County Schools", S "Closed", S "X"⟩,
                ⟨S "maury county schools", S "Two hour delay with extra info",
                 S "Y"⟩]).map Closing.name = [S "maury county schools"] ∧
    (aggregate [⟨S "Maury County Schools", S "Closed", S "X"⟩,
                ⟨S "maury county schools", S "Two hour delay with extra info",
                 S "Y"⟩]).map Closing.status = [S "DELAYED"] ∧
    classify_status (S "Closed") = S "CLOSED" := by
  refine ⟨by decide, by decide, by decide⟩

/-- C3, amended: merging a later record with the same dedup key either
changes nothing (when its status_detail is not strictly longer) or replaces
the stored record in its entirety — name, status, status_detail, region and
source all become the later record's values. -/
theorem C3_amended (c1 c2 : Closing)
    (h : dedupKey c1.name = dedupKey c2.name) :
    (c2.status_detail.length ≤ c1.status_detail.length →
      deduplicate_closings [c1, c2] = [c1]) ∧
    (c2.status_detail.length > c1.status_detail.length →
      deduplicate_closings [c1, c2] = [c2]) := by
  have hp := dedup_pair c1 c2 h
  constructor
  · intro hle
    rw [hp, if_neg (by omega)]
  · intro hgt
    rw [hp, if_pos hgt]

theorem C3_witness :
    deduplicate_closings
        [⟨S "k", S "CLOSED", S "short", S "Other", S "A"⟩,
         ⟨S "K", S "DELAYED", S "much longer detail", S "Other", S "B"⟩] =
      [⟨S "K", S "DELAYED", S "much longer detail", S "Other", S "B"⟩] :=
  (C3_amended ⟨S "k", S "CLOSED", S "short", S "Other", S "A"⟩
      ⟨S "K", S "DELAYED", S "much longer detail", S "Other", S "B"⟩
      (by decide)).2 (by decide)

/-- C4, counterexample: merging records with sources "A" then "B" then "A"
(equal details) yields one record whose single `source` field is "A" — no
`sources` list `["A","B"]` is accumulated anywhere. -/
theorem C4_counterexample :
    deduplicate_closings
        [⟨S "k", S "CLOSED", S "d", S "Other", S "A"⟩,
         ⟨S "k", S "CLOSED", S "d", S "Other", S "B"⟩,
         ⟨S "k", S "CLOSED", S "d", S "Other", S "A"⟩] =
      [⟨S "k", S "CLOSED", S "d", S "Other", S "A"⟩] := by
  decide

/-- C4, amended: every emitted record carries exactly one source — that of
its surviving input record; the emitted source is always the source of some
input record, and the other sources that reported the key are dropped. -/
theorem C4_amended (cs : List Closing) (c : Closing)
    (h : c ∈ deduplicate_closings cs) : c.source ∈ cs.map Closing.source :=
  List.mem_map_of_mem Closing.source (dedup_mem cs c h)

theorem C4_witness :
    (⟨S "k", S "CLOSED", S "d", S "Other", S "A"⟩ : Closing).source ∈
      ([⟨S "k", S "CLOSED", S "d", S "Other", S "A"⟩] : List Closing).map
        Closing.source :=
  C4_amended [⟨S "k", S "CLOSED", S "d", S "Other", S "A"⟩]
    ⟨S "k", S "CLOSED", S "d", S "Other", S "A"⟩ (by decide)

/-- C5, counterexample: the emitted collection is not sorted by display
name — for the input whose names arrive as "b" then "a", the output order
is ["b", "a"], which ascending ordinal order would forbid. -/
theorem C5_counterexample :
    ¬ sortedByName
        (aggregate [⟨S "b", S "closed", S "S1"⟩, ⟨S "a", S "closed", S "S2"⟩]) ∧
    (aggregate [⟨S "b", S "closed", S "S1"⟩,
                ⟨S "a", S "closed", S "S2"⟩]).map Closing.name
      = [S "b", S "a"] := by
  constructor
  · unfold sortedByName
    decide
  · decide

/-- C5, amended: the emitted collection is in first-seen insertion order,
not sorted by name: when the input records all have distinct dedup keys the
pipeline returns exactly the classified input records in input order. -/
theorem C5_amended (raws : List RawClosing)
    (h : ((raws.map mkClosing).map keyOf).Nodup) :
    aggregate raws = raws.map mkClosing :=
  dedup_of_nodup_keys _ h

theorem C5_witness :
    aggregate [⟨S "b", S "closed", S "S1"⟩, ⟨S "a", S "closed", S "S2"⟩] =
      [mkClosing ⟨S "b", S "closed", S "S1"⟩,
       mkClosing ⟨S "a", S "closed", S "S2"⟩] :=
  C5_amended [⟨S "b", S "closed", S "S1"⟩, ⟨S "a", S "closed", S "S2"⟩]
    (by decide)

/-- C6, counterexample: the empty name does not resolve to "Other" — the
partial-match layer finds the empty string as a substring of the first
district key, so `classify_region ""` is "East Tennessee". -/
theorem C6_counterexample :
    classify_region (S "") = S "East Tennessee" ∧
    classify_region (S "") ≠ S "Other" := by
  decide

/-- C6, amended: `classify_region` is total — every input, including the
empty string, resolves to one of the four region values, and names matched
by no layer fall through to "Other" — but the empty name resolves to
"East Tennessee" via the vacuous partial substring match, not to "Other". -/
theorem C6_amended :
    (∀ name, classify_region name = S "East Tennessee" ∨
      classify_region name = S "Middle Tennessee" ∨
      classify_region name = S "West Tennessee" ∨
      classify_region name = S "Other") ∧
    classify_region (S "") = S "East Tennessee" :=
  ⟨classify_region_total, by decide⟩

/-- C7: `classify_status` tests the upper-cased text against the keyword
groups in the fixed order DELAYED, EARLY_DISMISSAL, REMOTE, CLOSED and
returns the kind of the first matching group; when no group matches
(including the empty string) the result is CLOSED, and a text containing
both a DELAYED and a CLOSED keyword classifies as DELAYED. -/
theorem C7_status_order (t : List Nat) :
    (hasKW DELAYED_KWS (pyUpper t) = true → classify_status t = S "DELAYED") ∧
    (hasKW DELAYED_KWS (pyUpper t) = false → hasKW EARLY_KWS (pyUpper t) = true →
      classify_status t = S "EARLY_DISMISSAL") ∧
    (hasKW DELAYED_KWS (pyUpper t) = false → hasKW EARLY_KWS (pyUpper t) = false →
      hasKW REMOTE_KWS (pyUpper t) = true → classify_status t = S "REMOTE") ∧
    (hasKW DELAYED_KWS (pyUpper t) = false → hasKW EARLY_KWS (pyUpper t) = false →
      hasKW REMOTE_KWS (pyUpper t) = false → classify_status t = S "CLOSED") ∧
    classify_status (S "") = S "CLOSED" ∧
    classify_status (S "2 hour delay, building closed") = S "DELAYED" := by
  refine ⟨?_, ?_, ?_, ?_, by decide, by decide⟩
  · intro h1
    simp [classify_status, h1]
  · intro h1 h2
    simp [classify_status, h1, h2]
  · intro h1 h2 h3
    simp [classify_status, h1, h2, h3]
  · intro h1 h2 h3
    simp [classify_status, h1, h2, h3]

theorem C7_witness :
    classify_status (S "2 hour delay, building closed") = S "DELAYED" ∧
    classify_status (S "fog advisory") = S "CLOSED" :=
  ⟨(C7_status_order (S "2 hour delay, building closed")).1 (by decide),
   (C7_status_order (S "fog advisory")).2.2.2.1 (by decide) (by decide)
     (by decide)⟩

/-- C8: the four region examples of the spec, under the layered lookup:
Metro Nashville Public Schools and Williamson Co Schools classify as
Middle Tennessee, Some School Near Memphis as West Tennessee, and
Unknown Academy of Nowhere as Other. -/
theorem C8_region_examples :
    classify_region (S "Metro Nashville Public Schools") = S "Middle Tennessee" ∧
    classify_region (S "Williamson Co Schools") = S "Middle Tennessee" ∧
    classify_region (S "Some School Near Memphis") = S "West Tennessee" ∧
    classify_region (S "Unknown Academy of Nowhere") = S "Other" := by
  refine ⟨by decide, by decide, by decide, by decide⟩

/-- C9: the dedup-key normalization (upper-case then strip, line 489) is
idempotent, and "Wilson County Schools" and "wilson county schools" produce
the same dedup key. -/
theorem C9_key_idempotent :
    (∀ x, dedupKey (dedupKey x) = dedupKey x) ∧
    dedupKey (S "Wilson County Schools") = dedupKey (S "wilson county schools") :=
  ⟨dedupKey_idem, by decide⟩

/-- C10: every record emitted by `deduplicate_closings` is field-for-field
one of the input records, and for two records sharing a dedup key the
survivor is the first unless the later one has a strictly longer
status_detail, in which case the later record replaces it in its
entirety. -/
theorem C10_survivor :
    (∀ (cs : List Closing) (c : Closing), c ∈ deduplicate_closings cs → c ∈ cs) ∧
    (∀ c1 c2 : Closing, dedupKey c1.name = dedupKey c2.name →
      deduplicate_closings [c1, c2] =
        [if c2.status_detail.length > c1.status_detail.length then c2 else c1]) :=
  ⟨dedup_mem, fun c1 c2 h => dedup_pair c1 c2 h⟩

theorem C10_witness :
    (⟨S "k", S "CLOSED", S "dd", S "Other", S "A"⟩ : Closing) ∈
      ([⟨S "k", S "CLOSED", S "dd", S "Other", S "A"⟩] : List Closing) ∧
    deduplicate_closings
        [⟨S "k", S "CLOSED", S "dd", S "Other", S "A"⟩,
         ⟨S "K ", S "CLOSED", S "longer detail", S "Other", S "B"⟩] =
      [if (S "longer detail").length > (S "dd").length
       then (⟨S "K ", S "CLOSED", S "longer detail", S "Other", S "B"⟩ : Closing)
       else ⟨S "k", S "CLOSED", S "dd", S "Other", S "A"⟩] :=
  ⟨C10_survivor.1 [⟨S "k", S "CLOSED", S "dd", S "Other", S "A"⟩]
      ⟨S "k", S "CLOSED", S "dd", S "Other", S "A"⟩ (by decide),
   C10_survivor.2 ⟨S "k", S "CLOSED", S "dd", S "Other", S "A"⟩
      ⟨S "K ", S "CLOSED", S "longer detail", S "Other", S "B"⟩ (by decide)⟩


end TNClosings
